import Mathlib

/-!
Verification of the TS-Web-Portal usage-tracking client
(`src/examples/usage_tracker.py`) against its specification.

The client is a synchronous HTTP wrapper.  We embed it shallowly:

* JSON values are the inductive `Json`; a parsed response body is
  `Except String Json`, where `Except.error d` models a body that is not
  well-formed JSON (`d` is the string of the decode exception).
* The single network interaction a call performs is an `Outcome` supplied
  by the environment: a transport-level timeout, a transport-level
  connection failure, some other request exception, or an HTTP response.
* Raised Python exceptions become `Except.error` of a `PyError` value.
  `PyError.valueError` models the builtin `ValueError` raised by
  `__init__` (the specification names this case `ConfigError`);
  `PyError.attributeError` models the builtin `AttributeError` that
  `error_data.get` raises when a parsed 422 body is not a JSON object.
* Following the `requests` library (2.27 and later), a JSON decode
  failure inside `response.json()` raises
  `requests.exceptions.JSONDecodeError`, a subclass of
  `requests.exceptions.RequestException` but not of `Timeout` or
  `ConnectionError`; it is therefore caught by the generic
  `except requests.exceptions.RequestException` handler.
-/

/-- A JSON value, as produced by `response.json()`.  An object is the
parsed Python dict, listed as its (unique-key) items in order. -/
inductive Json where
  | null : Json
  | bool (b : Bool) : Json
  | num (n : Int) : Json
  | str (s : String) : Json
  | arr (elts : List Json) : Json
  | obj (fields : List (String × Json)) : Json

/-- The Python exceptions the client can raise.  `usageTrackerError`,
`authenticationError` and `validationError` are the classes defined in
`usage_tracker.py` (lines 34-46); `valueError` and `attributeError` are
builtins. -/
inductive PyError where
  | valueError (msg : String) : PyError
  | usageTrackerError (msg : String) : PyError
  | authenticationError (msg : String) : PyError
  | validationError (msg : String) : PyError
  | attributeError : PyError
deriving DecidableEq

/-- The Python class hierarchy: `AuthenticationError` and
`ValidationError` are declared as subclasses of `UsageTrackerError`
(lines 39-46), so an `except UsageTrackerError` clause catches all
three; `ValueError` and `AttributeError` are unrelated builtins. -/
def isInstanceOfUsageTrackerError : PyError → Bool
  | .usageTrackerError _ => true
  | .authenticationError _ => true
  | .validationError _ => true
  | .valueError _ => false
  | .attributeError => false

/-- Exactly the base class `UsageTrackerError` itself (a "generic"
error), not one of its subclasses. -/
def errIsGenericUsageTrackerError : PyError → Bool
  | .usageTrackerError _ => true
  | _ => false

/-- Exactly the class `ValidationError`. -/
def errIsValidationError : PyError → Bool
  | .validationError _ => true
  | _ => false

/-- Exactly the class `AuthenticationError`. -/
def errIsAuthenticationError : PyError → Bool
  | .authenticationError _ => true
  | _ => false

/-- Exactly the builtin `ValueError`, which realizes the specification's
`ConfigError` (bad constructor input). -/
def errIsConfigError : PyError → Bool
  | .valueError _ => true
  | _ => false

/-- Whether a call result is a raised `ValidationError`. -/
def resultIsValidationError : Except PyError Json → Bool
  | .error e => errIsValidationError e
  | .ok _ => false

/-- Python `s.rstrip('/')`: remove every trailing `'/'` character
(line 73). -/
def pyRstripSlash (s : String) : String :=
  ⟨((s.data.reverse.dropWhile (fun c => c = '/')).reverse)⟩

/-- The `UsageTracker` instance attributes assigned in `__init__`
(lines 73-76). -/
structure UsageTracker where
  portal_url : String
  auth_token : String
  project_id : String
  timeout : Int
deriving DecidableEq

/-- `UsageTracker.__init__` (lines 57-84): store
`portal_url.rstrip('/')`, the token, the project id and the timeout,
then validate in source order; `if not s` on a Python `str` tests
emptiness.  A raised `ValueError` means the caller receives no object. -/
def mkUsageTracker (portal_url auth_token project_id : String)
    (timeout : Int) : Except PyError UsageTracker :=
  if pyRstripSlash portal_url = "" then
    .error (.valueError "portal_url is required")
  else if auth_token = "" then .error (.valueError "auth_token is required")
  else if project_id = "" then .error (.valueError "project_id is required")
  else .ok ⟨pyRstripSlash portal_url, auth_token, project_id, timeout⟩

mutual

/-- Python `repr` of a JSON-shaped value (quotes around strings, `None`,
`True`, `False`); string escaping inside the quotes is not modelled. -/
def pyRepr : Json → String
  | .null => "None"
  | .bool true => "True"
  | .bool false => "False"
  | .num n => toString n
  | .str s => "\x27" ++ s ++ "\x27"
  | .arr l => "[" ++ pyReprElems l ++ "]"
  | .obj l => "\x7b" ++ pyReprItems l ++ "\x7d"

/-- Comma-separated `repr`s of the elements of a Python list. -/
def pyReprElems : List Json → String
  | [] => ""
  | [j] => pyRepr j
  | j :: rest => pyRepr j ++ ", " ++ pyReprElems rest

/-- Comma-separated `repr`s of the items of a Python dict. -/
def pyReprItems : List (String × Json) → String
  | [] => ""
  | [(k, v)] => "\x27" ++ k ++ "\x27: " ++ pyRepr v
  | (k, v) :: rest =>
    "\x27" ++ k ++ "\x27: " ++ pyRepr v ++ ", " ++ pyReprItems rest

end

/-- Python `str` of a value interpolated into an f-string: a `str` is
itself, anything else prints as its `repr` (line 155 interpolates the
value of `error_data.get(...)`). -/
def pyStr : Json → String
  | .str s => s
  | j => pyRepr j

/-- An HTTP response as the client observes it: the status code, and the
result of parsing the body as JSON (`Except.error d` when the body is
unparseable, `d` being the text of the decode exception). -/
structure HttpResponse where
  status : Nat
  body : Except String Json

/-- What the single `requests.post`/`requests.get` call of an operation
does: raise a transport exception, or produce an HTTP response.  Each
transport constructor carries `str(e)` of the raised exception. -/
inductive Outcome where
  | timeout (detail : String) : Outcome
  | connectionError (detail : String) : Outcome
  | requestException (detail : String) : Outcome
  | response (r : HttpResponse) : Outcome

/-- `requests.Response.ok`: true when the status code is below 400. -/
def responseOk (status : Nat) : Bool :=
  status < 400

/-- The URL `track_usage` posts to (line 129). -/
def track_usage_url (t : UsageTracker) : String :=
  t.portal_url ++ "/api/usage"

/-- The URL `get_usage` issues its GET against (line 191). -/
def get_usage_url (t : UsageTracker) : String :=
  t.portal_url ++ "/api/usage"

/-- The JSON request body `track_usage` builds (lines 131-140): the five
base keys in insertion order, then `request_timestamp` added only when
`if request_timestamp:` is truthy — i.e. the argument was supplied and
is a non-empty string. -/
def track_usage_payload (t : UsageTracker) (provider model : String)
    (input_tokens output_tokens : Int) (request_timestamp : Option String) :
    List (String × Json) :=
  [("project_id", .str t.project_id),
   ("provider", .str provider),
   ("model", .str model),
   ("input_tokens", .num input_tokens),
   ("output_tokens", .num output_tokens)] ++
  (match request_timestamp with
   | some ts => if ts = "" then [] else [("request_timestamp", .str ts)]
   | none => [])

/-- The query parameters `get_usage` sends (lines 193-197):
`project_id` always, then `date_from`/`date_to` added under Python
truthiness tests (`if date_from:`), so an absent or empty string is
omitted. -/
def get_usage_params (t : UsageTracker)
    (date_from date_to : Option String) : List (String × String) :=
  [("project_id", t.project_id)] ++
  (match date_from with
   | some df => if df = "" then [] else [("date_from", df)]
   | none => []) ++
  (match date_to with
   | some dt => if dt = "" then [] else [("date_to", dt)]
   | none => [])

/-- `UsageTracker.track_usage` (lines 94-168), applied to the outcome of
its single `requests.post` call.  The status checks run in source order;
on 422 the body is parsed (an unparseable body raises a
`JSONDecodeError`, caught by the `RequestException` handler as
`"Request failed: ..."`), and `error_data.get` on a parsed non-dict body
raises `AttributeError`, which no handler catches.  The three `except`
clauses map `Timeout`, `ConnectionError` and any other
`RequestException` as on lines 163-168. -/
def track_usage (t : UsageTracker) (provider model : String)
    (input_tokens output_tokens : Int) (request_timestamp : Option String)
    (net : Outcome) : Except PyError Json :=
  match net with
  | .timeout _ =>
    .error (.usageTrackerError
      ("Request timed out after " ++ toString t.timeout ++ " seconds"))
  | .connectionError _ =>
    .error (.usageTrackerError ("Failed to connect to " ++ t.portal_url))
  | .requestException d =>
    .error (.usageTrackerError ("Request failed: " ++ d))
  | .response r =>
    if r.status = 401 then
      .error (.authenticationError "Authentication failed. Check your auth token.")
    else if r.status = 422 then
      match r.body with
      | .ok (.obj fields) =>
        .error (.validationError ("Validation failed: " ++
          pyStr (((fields.lookup "error").getD (.str "Unknown error")))))
      | .ok _ => .error .attributeError
      | .error d => .error (.usageTrackerError ("Request failed: " ++ d))
    else if r.status = 404 then
      .error (.usageTrackerError "Project not found or access denied")
    else if ¬ responseOk r.status then
      .error (.usageTrackerError
        ("API request failed with status " ++ toString r.status))
    else
      match r.body with
      | .ok j => .ok j
      | .error d => .error (.usageTrackerError ("Request failed: " ++ d))

/-- `UsageTracker.get_usage` (lines 170-215), applied to the outcome of
its single `requests.get` call.  Its only transport handler is
`except requests.exceptions.RequestException` (line 214), and `Timeout`
and `ConnectionError` are subclasses of `RequestException`, so every
transport failure maps to `"Request failed: ..."`. -/
def get_usage (t : UsageTracker) (date_from date_to : Option String)
    (net : Outcome) : Except PyError Json :=
  match net with
  | .timeout d => .error (.usageTrackerError ("Request failed: " ++ d))
  | .connectionError d => .error (.usageTrackerError ("Request failed: " ++ d))
  | .requestException d => .error (.usageTrackerError ("Request failed: " ++ d))
  | .response r =>
    if r.status = 401 then
      .error (.authenticationError "Authentication failed. Check your auth token.")
    else if ¬ responseOk r.status then
      .error (.usageTrackerError
        ("API request failed with status " ++ toString r.status))
    else
      match r.body with
      | .ok j => .ok j
      | .error d => .error (.usageTrackerError ("Request failed: " ++ d))

/-- State-passing form of `track_usage`: the method body (lines 94-168)
reads `self.portal_url`, `self.project_id`, `self.auth_token` and
`self.timeout` and assigns no attribute of `self`, so the instance
after the call is the instance before it. -/
def track_usage_call (t : UsageTracker) (provider model : String)
    (input_tokens output_tokens : Int) (request_timestamp : Option String)
    (net : Outcome) : Except PyError Json × UsageTracker :=
  (track_usage t provider model input_tokens output_tokens request_timestamp net, t)

/-- State-passing form of `get_usage`: the method body (lines 170-215)
assigns no attribute of `self`. -/
def get_usage_call (t : UsageTracker) (date_from date_to : Option String)
    (net : Outcome) : Except PyError Json × UsageTracker :=
  (get_usage t date_from date_to net, t)

/-- `pat` starts the character list `s`. -/
def charsHavePrefix : List Char → List Char → Bool
  | _, [] => true
  | [], _ :: _ => false
  | a :: as, b :: bs => a = b && charsHavePrefix as bs

/-- `pat` occurs somewhere in the character list `s`. -/
def charsContain : List Char → List Char → Bool
  | [], pat => pat.isEmpty
  | c :: cs, pat => charsHavePrefix (c :: cs) pat || charsContain cs pat

/-- `pat` occurs as a contiguous substring of `s`. -/
def strContains (s pat : String) : Bool :=
  charsContain s.data pat.data

/-- The last character of `s` is a slash. -/
def endsWithSlash (s : String) : Bool :=
  match s.data.getLast? with
  | some c => c = '/'
  | none => false

/-! ### Helper lemmas -/

/-- `pyRstripSlash` is `List.rdropWhile` on the character list. -/
theorem pyRstripSlash_data (s : String) :
    (pyRstripSlash s).data = s.data.rdropWhile (fun c => c = '/') := rfl

/-- After `rstrip('/')` the stored URL never ends in a slash. -/
theorem endsWithSlash_pyRstripSlash (s : String) :
    endsWithSlash (pyRstripSlash s) = false := by
  unfold endsWithSlash
  rw [pyRstripSlash_data]
  rcases h : (s.data.rdropWhile (fun c => c = '/')).getLast? with _ | c
  · rfl
  · have hne : s.data.rdropWhile (fun c => c = '/') ≠ [] := by
      intro hnil
      rw [hnil] at h
      simp at h
    have hlast := List.rdropWhile_last_not (fun c => c = '/') s.data hne
    have hc : ((s.data.rdropWhile (fun c => c = '/')).getLast hne) = c := by
      have := List.getLast?_eq_getLast _ hne
      rw [this] at h
      exact Option.some.inj h
    rw [hc] at hlast
    simpa using hlast

/-- A string made only of slashes strips to the empty string. -/
theorem pyRstripSlash_all_slash (s : String) (h : ∀ c ∈ s.data, c = '/') :
    pyRstripSlash s = "" := by
  have hnil : s.data.rdropWhile (fun c => c = '/') = [] :=
    List.rdropWhile_eq_nil_iff.mpr (by simpa using h)
  have : (pyRstripSlash s).data = [] := by rw [pyRstripSlash_data, hnil]
  cases hs : pyRstripSlash s with
  | mk l => rw [hs] at this; simp at this; rw [this]

/-! ### C1: 422 handling on submit -/

/-- C1 counterexample: a 422 response whose body is unparseable as JSON
does not raise `ValidationError` with an "Unknown error" message; the
decode failure is caught by the `RequestException` handler and raises a
plain `UsageTrackerError("Request failed: ...")`. -/
theorem submit_422_unparseable_not_validation_error :
    track_usage ⟨"https://portal.example.com", "tok", "proj", 30⟩
        "openai" "gpt-4" 1500 500 none
        (.response ⟨422, .error "Expecting value: line 1 column 1 (char 0)"⟩) =
      .error (.usageTrackerError
        "Request failed: Expecting value: line 1 column 1 (char 0)") ∧
    resultIsValidationError
      (track_usage ⟨"https://portal.example.com", "tok", "proj", 30⟩
        "openai" "gpt-4" 1500 500 none
        (.response ⟨422, .error "Expecting value: line 1 column 1 (char 0)"⟩)) =
      false :=
  ⟨rfl, rfl⟩

/-- C1 (amended): for every submit call receiving HTTP 422 whose body
parses as a JSON object, the client raises `ValidationError` with
message `"Validation failed: "` plus the object's `error` field, or plus
`"Unknown error"` when that field is absent; when the body is
unparseable as JSON the client instead raises
`UsageTrackerError("Request failed: {detail}")`.  In particular the body
`{"error": "input_tokens must be >= 0"}` yields a `ValidationError`
whose message contains that text. -/
theorem submit_422_validation_error_mapping :
    (∀ t p m it ot ts fields,
      track_usage t p m it ot ts (.response ⟨422, .ok (.obj fields)⟩) =
        .error (.validationError ("Validation failed: " ++
          pyStr ((fields.lookup "error").getD (.str "Unknown error"))))) ∧
    (∀ t p m it ot ts d,
      track_usage t p m it ot ts (.response ⟨422, .error d⟩) =
        .error (.usageTrackerError ("Request failed: " ++ d))) ∧
    (∀ t p m it ot ts,
      track_usage t p m it ot ts
          (.response ⟨422, .ok (.obj [("error", .str "input_tokens must be >= 0")])⟩) =
        .error (.validationError "Validation failed: input_tokens must be >= 0") ∧
      strContains "Validation failed: input_tokens must be >= 0"
        "input_tokens must be >= 0" = true) ∧
    (∀ t p m it ot ts fields, fields.lookup "error" = none →
      track_usage t p m it ot ts (.response ⟨422, .ok (.obj fields)⟩) =
        .error (.validationError "Validation failed: Unknown error")) := by
  refine ⟨fun t p m it ot ts fields => rfl,
          fun t p m it ot ts d => rfl,
          fun t p m it ot ts => ⟨rfl, by decide⟩,
          fun t p m it ot ts fields h => ?_⟩
  have e : track_usage t p m it ot ts (.response ⟨422, .ok (.obj fields)⟩) =
      .error (.validationError ("Validation failed: " ++
        pyStr ((fields.lookup "error").getD (.str "Unknown error")))) := rfl
  rw [e, h]
  rfl

/-- Witness for C1: a 422 body that is an object without an `error`
field yields the "Unknown error" message. -/
theorem submit_422_validation_error_mapping_witness :
    track_usage ⟨"https://portal.example.com", "tok", "proj", 30⟩
        "openai" "gpt-4" 1500 500 none (.response ⟨422, .ok (.obj [])⟩) =
      .error (.validationError "Validation failed: Unknown error") :=
  submit_422_validation_error_mapping.2.2.2
    ⟨"https://portal.example.com", "tok", "proj", 30⟩
    "openai" "gpt-4" 1500 500 none [] rfl

/-! ### C2: transport error mapping -/

/-- C2 counterexample: a transport-level timeout during `get_usage` is
caught by its only handler, `except requests.exceptions.RequestException`,
so the raised message is `"Request failed: {detail}"` — it neither reads
"Request timed out ..." nor mentions the configured timeout of 30. -/
theorem get_usage_timeout_generic_message :
    get_usage ⟨"https://portal.example.com", "tok", "proj", 30⟩ none none
        (.timeout "HTTPSConnectionPool read timed out") =
      .error (.usageTrackerError
        "Request failed: HTTPSConnectionPool read timed out") ∧
    strContains "Request failed: HTTPSConnectionPool read timed out"
      "Request timed out" = false ∧
    strContains "Request failed: HTTPSConnectionPool read timed out"
      "30" = false :=
  ⟨rfl, by decide, by decide⟩

/-- C2 (amended): `track_usage` maps a transport timeout to
`UsageTrackerError("Request timed out after {timeout} seconds")` and a
connection failure to `UsageTrackerError("Failed to connect to
{base_url}")`; `get_usage` has no such dedicated handlers and maps both,
like every other transport failure, to
`UsageTrackerError("Request failed: {detail}")`. -/
theorem transport_error_messages :
    (∀ t p m it ot ts d,
      track_usage t p m it ot ts (.timeout d) =
        .error (.usageTrackerError
          ("Request timed out after " ++ toString t.timeout ++ " seconds"))) ∧
    (∀ t p m it ot ts d,
      track_usage t p m it ot ts (.connectionError d) =
        .error (.usageTrackerError ("Failed to connect to " ++ t.portal_url))) ∧
    (∀ t df dt d,
      get_usage t df dt (.timeout d) =
        .error (.usageTrackerError ("Request failed: " ++ d))) ∧
    (∀ t df dt d,
      get_usage t df dt (.connectionError d) =
        .error (.usageTrackerError ("Request failed: " ++ d))) :=
  ⟨fun t p m it ot ts d => rfl, fun t p m it ot ts d => rfl,
   fun t df dt d => rfl, fun t df dt d => rfl⟩

/-! ### C3: constructor validation -/

/-- C3 counterexample: `"/"` is a non-empty base_url, yet construction
fails, because `rstrip('/')` runs before the emptiness check. -/
theorem construction_nonempty_slash_fails :
    mkUsageTracker "/" "tok" "proj" 30 =
      .error (.valueError "portal_url is required") ∧
    "/" ≠ "" ∧ "tok" ≠ "" ∧ "proj" ≠ "" :=
  ⟨rfl, by decide, by decide, by decide⟩

/-- C3 (amended): construction succeeds for every triple in which
base_url is non-empty after stripping trailing slashes and auth_token
and project_id are non-empty, and fails with `ConfigError` (the
constructor's `ValueError`), returning no object, whenever any of the
three is empty — base_url being judged after the stripping. -/
theorem construction_validation :
    (∀ b a p (tmo : Int), pyRstripSlash b ≠ "" → a ≠ "" → p ≠ "" →
      mkUsageTracker b a p tmo = .ok ⟨pyRstripSlash b, a, p, tmo⟩) ∧
    (∀ b a p (tmo : Int), pyRstripSlash b = "" ∨ a = "" ∨ p = "" →
      ∃ e, mkUsageTracker b a p tmo = .error e ∧ errIsConfigError e = true) := by
  constructor
  · intro b a p tmo h1 h2 h3
    unfold mkUsageTracker
    rw [if_neg h1, if_neg h2, if_neg h3]
  · intro b a p tmo h
    unfold mkUsageTracker
    split_ifs with h1 h2 h3
    · exact ⟨.valueError "portal_url is required", rfl, rfl⟩
    · exact ⟨.valueError "auth_token is required", rfl, rfl⟩
    · exact ⟨.valueError "project_id is required", rfl, rfl⟩
    · exfalso
      rcases h with hb | ha | hp
      · exact h1 hb
      · exact h2 ha
      · exact h3 hp

/-- Witness for C3: a concrete valid triple constructs successfully. -/
theorem construction_validation_witness :
    mkUsageTracker "https://portal.example.com" "tok" "proj" 30 =
      .ok ⟨"https://portal.example.com", "tok", "proj", 30⟩ :=
  construction_validation.1 "https://portal.example.com" "tok" "proj" 30
    (by decide) (by decide) (by decide)

/-! ### C4: base URL normalization -/

/-- C4: every constructed tracker stores the base_url with trailing
slashes stripped (so it never ends in a slash), and both operations
target exactly that stripped URL followed by `/api/usage`; in
particular a tracker built from `"https://portal.example.com/"` targets
`"https://portal.example.com/api/usage"` with no double slash. -/
theorem base_url_normalization :
    (∀ b a p (tmo : Int) tr, mkUsageTracker b a p tmo = .ok tr →
      tr.portal_url = pyRstripSlash b ∧
      endsWithSlash tr.portal_url = false ∧
      track_usage_url tr = pyRstripSlash b ++ "/api/usage" ∧
      get_usage_url tr = pyRstripSlash b ++ "/api/usage") ∧
    (∀ a p (tmo : Int) tr,
      mkUsageTracker "https://portal.example.com/" a p tmo = .ok tr →
      track_usage_url tr = "https://portal.example.com/api/usage" ∧
      get_usage_url tr = "https://portal.example.com/api/usage") := by
  have main : ∀ b a p (tmo : Int) tr, mkUsageTracker b a p tmo = .ok tr →
      tr.portal_url = pyRstripSlash b ∧
      endsWithSlash tr.portal_url = false ∧
      track_usage_url tr = pyRstripSlash b ++ "/api/usage" ∧
      get_usage_url tr = pyRstripSlash b ++ "/api/usage" := by
    intro b a p tmo tr h
    unfold mkUsageTracker at h
    split_ifs at h
    have htr : tr = ⟨pyRstripSlash b, a, p, tmo⟩ := (Except.ok.inj h).symm
    subst htr
    exact ⟨rfl, endsWithSlash_pyRstripSlash b, rfl, rfl⟩
  refine ⟨main, fun a p tmo tr h => ?_⟩
  rcases main "https://portal.example.com/" a p tmo tr h with ⟨hurl, -, h1, h2⟩
  constructor
  · rw [h1]; rfl
  · rw [h2]; rfl

/-- Witness for C4: the concrete tracker built from a trailing-slash
base URL targets the double-slash-free endpoint. -/
theorem base_url_normalization_witness :
    track_usage_url ⟨"https://portal.example.com", "tok", "proj", 30⟩ =
      "https://portal.example.com/api/usage" ∧
    get_usage_url ⟨"https://portal.example.com", "tok", "proj", 30⟩ =
      "https://portal.example.com/api/usage" :=
  base_url_normalization.2 "tok" "proj" 30
    ⟨"https://portal.example.com", "tok", "proj", 30⟩ rfl

/-! ### C5: submit request body -/

/-- C5: the submit body holds exactly `project_id` (from the
configuration), `provider`, `model`, `input_tokens` and
`output_tokens`; `request_timestamp` appears only when a (truthy)
timestamp was supplied, and when none is supplied the key is omitted
entirely rather than sent as `null`. -/
theorem submit_payload_fields :
    (∀ t p m it ot, track_usage_payload t p m it ot none =
      [("project_id", .str t.project_id), ("provider", .str p),
       ("model", .str m), ("input_tokens", .num it),
       ("output_tokens", .num ot)]) ∧
    (∀ t p m it ot ts, ts ≠ "" →
      track_usage_payload t p m it ot (some ts) =
      [("project_id", .str t.project_id), ("provider", .str p),
       ("model", .str m), ("input_tokens", .num it),
       ("output_tokens", .num ot), ("request_timestamp", .str ts)]) ∧
    (∀ t p m it ot ts,
      "request_timestamp" ∈ (track_usage_payload t p m it ot ts).map Prod.fst →
      ts ≠ none) ∧
    (∀ t p m it ot ts,
      ("request_timestamp", Json.null) ∉ track_usage_payload t p m it ot ts) := by
  refine ⟨fun t p m it ot => rfl, fun t p m it ot ts h => ?_, ?_, ?_⟩
  · simp only [track_usage_payload, if_neg h]
    rfl
  · intro t p m it ot ts h
    cases ts with
    | none => simp [track_usage_payload] at h
    | some s => exact Option.some_ne_none s
  · intro t p m it ot ts
    cases ts with
    | none => simp [track_usage_payload]
    | some s =>
      by_cases hs : s = "" <;> simp [track_usage_payload, hs]

/-- Witness for C5: evaluating the payload with a supplied timestamp. -/
theorem submit_payload_fields_witness :
    track_usage_payload ⟨"https://portal.example.com", "tok", "proj", 30⟩
        "openai" "gpt-4" 1500 500 (some "2024-01-01T00:00:00Z") =
      [("project_id", .str "proj"), ("provider", .str "openai"),
       ("model", .str "gpt-4"), ("input_tokens", .num 1500),
       ("output_tokens", .num 500),
       ("request_timestamp", .str "2024-01-01T00:00:00Z")] :=
  submit_payload_fields.2.1 ⟨"https://portal.example.com", "tok", "proj", 30⟩
    "openai" "gpt-4" 1500 500 "2024-01-01T00:00:00Z" (by decide)

/-! ### C6: get_usage query parameters -/

/-- C6: with both dates supplied the GET carries exactly `project_id`,
`date_from` and `date_to`; a date that is not supplied is omitted, and
`project_id` is present in every case. -/
theorem get_usage_query_parameters :
    (∀ t df dt, df ≠ "" → dt ≠ "" →
      get_usage_params t (some df) (some dt) =
        [("project_id", t.project_id), ("date_from", df), ("date_to", dt)]) ∧
    (∀ t, get_usage_params t none none = [("project_id", t.project_id)]) ∧
    (∀ t dt, dt ≠ "" → get_usage_params t none (some dt) =
        [("project_id", t.project_id), ("date_to", dt)]) ∧
    (∀ t df, df ≠ "" → get_usage_params t (some df) none =
        [("project_id", t.project_id), ("date_from", df)]) ∧
    (∀ t df dt, ("project_id", t.project_id) ∈ get_usage_params t df dt) := by
  refine ⟨fun t df dt h1 h2 => ?_, fun t => rfl, fun t dt h => ?_,
          fun t df h => ?_, fun t df dt => ?_⟩
  · simp only [get_usage_params, if_neg h1, if_neg h2]
    rfl
  · simp only [get_usage_params, if_neg h]
    rfl
  · simp only [get_usage_params, if_neg h]
    rfl
  · simp [get_usage_params]

/-- Witness for C6: the concrete query of the specification's example
date range. -/
theorem get_usage_query_parameters_witness :
    get_usage_params ⟨"https://portal.example.com", "tok", "proj", 30⟩
        (some "2024-01-01") (some "2024-01-31") =
      [("project_id", "proj"), ("date_from", "2024-01-01"),
       ("date_to", "2024-01-31")] :=
  get_usage_query_parameters.1 ⟨"https://portal.example.com", "tok", "proj", 30⟩
    "2024-01-01" "2024-01-31" (by decide) (by decide)

/-! ### C7: 401 handling -/

/-- C7: an HTTP 401 on either operation raises `AuthenticationError` —
an instance of `UsageTrackerError` by subclassing but not the generic
base class itself — so callers may catch it narrowly or broadly. -/
theorem http_401_authentication_error :
    ∀ t p m it ot ts body df dt body2,
      track_usage t p m it ot ts (.response ⟨401, body⟩) =
        .error (.authenticationError
          "Authentication failed. Check your auth token.") ∧
      get_usage t df dt (.response ⟨401, body2⟩) =
        .error (.authenticationError
          "Authentication failed. Check your auth token.") ∧
      (∀ msg, isInstanceOfUsageTrackerError (.authenticationError msg) = true) ∧
      (∀ msg, errIsGenericUsageTrackerError (.authenticationError msg) = false) ∧
      (∀ msg, errIsAuthenticationError (.authenticationError msg) = true) :=
  fun t p m it ot ts body df dt body2 =>
    ⟨rfl, rfl, fun msg => rfl, fun msg => rfl, fun msg => rfl⟩

/-! ### C8: no instance state is mutated -/

/-- C8: in the state-passing embedding of the two methods, the tracker
coming out of any call — whatever the network outcome, success or raised
error — is exactly the tracker that went in, so `portal_url`,
`auth_token`, `project_id` and `timeout` are unchanged. -/
theorem instance_state_immutable :
    ∀ t p m it ot ts net df dt net2,
      (track_usage_call t p m it ot ts net).2 = t ∧
      (get_usage_call t df dt net2).2 = t ∧
      (track_usage_call t p m it ot ts net).2.portal_url = t.portal_url ∧
      (track_usage_call t p m it ot ts net).2.auth_token = t.auth_token ∧
      (track_usage_call t p m it ot ts net).2.project_id = t.project_id ∧
      (track_usage_call t p m it ot ts net).2.timeout = t.timeout :=
  fun t p m it ot ts net df dt net2 => ⟨rfl, rfl, rfl, rfl, rfl, rfl⟩

/-! ### C9: slash-only base_url behaves like an empty one -/

/-- C9: a base_url made only of slash characters strips to the empty
string, so construction fails exactly as for the empty base_url, with
the same `ValueError("portal_url is required")`. -/
theorem slash_only_base_url_like_empty :
    ∀ b a p (tmo : Int), (∀ c ∈ b.data, c = '/') →
      mkUsageTracker b a p tmo = mkUsageTracker "" a p tmo ∧
      mkUsageTracker b a p tmo =
        .error (.valueError "portal_url is required") := by
  intro b a p tmo h
  have hs : pyRstripSlash b = "" := pyRstripSlash_all_slash b h
  have hsz : pyRstripSlash "" = "" := rfl
  constructor
  · unfold mkUsageTracker
    rw [hs, hsz]
  · unfold mkUsageTracker
    rw [hs]
    rfl

/-- Witness for C9: `"///"` fails like the empty string. -/
theorem slash_only_base_url_like_empty_witness :
    mkUsageTracker "///" "tok" "proj" 30 =
      .error (.valueError "portal_url is required") :=
  (slash_only_base_url_like_empty "///" "tok" "proj" 30 (by decide)).2

/-! ### C10: 2xx with an unparseable body -/

/-- C10: a 2xx response whose body is not well-formed JSON never returns
a value from either operation: the decode failure is caught by the
`RequestException` handler and raises
`UsageTrackerError("Request failed: {detail}")`, not `ValidationError`. -/
theorem success_status_unparseable_body :
    ∀ t p m it ot ts df dt (status : Nat) d, 200 ≤ status → status < 300 →
      track_usage t p m it ot ts (.response ⟨status, .error d⟩) =
        .error (.usageTrackerError ("Request failed: " ++ d)) ∧
      get_usage t df dt (.response ⟨status, .error d⟩) =
        .error (.usageTrackerError ("Request failed: " ++ d)) ∧
      resultIsValidationError
        (track_usage t p m it ot ts (.response ⟨status, .error d⟩)) = false ∧
      resultIsValidationError
        (get_usage t df dt (.response ⟨status, .error d⟩)) = false := by
  intro t p m it ot ts df dt status d h1 h2
  have h401 : status ≠ 401 := by omega
  have h422 : status ≠ 422 := by omega
  have h404 : status ≠ 404 := by omega
  have hlt : status < 400 := by omega
  have hok : ¬ ¬ responseOk status = true := by
    simp only [responseOk, decide_eq_true_eq]
    exact not_not_intro hlt
  have e1 : track_usage t p m it ot ts (.response ⟨status, .error d⟩) =
      .error (.usageTrackerError ("Request failed: " ++ d)) := by
    simp only [track_usage]
    rw [if_neg h401, if_neg h422, if_neg h404, if_neg hok]
  have e2 : get_usage t df dt (.response ⟨status, .error d⟩) =
      .error (.usageTrackerError ("Request failed: " ++ d)) := by
    simp only [get_usage]
    rw [if_neg h401, if_neg hok]
  refine ⟨e1, e2, ?_, ?_⟩
  · rw [e1]; rfl
  · rw [e2]; rfl

/-- Witness for C10: a concrete 200 response with a non-JSON body. -/
theorem success_status_unparseable_body_witness :
    track_usage ⟨"https://portal.example.com", "tok", "proj", 30⟩
        "openai" "gpt-4" 1500 500 none
        (.response ⟨200, .error "Expecting value: line 1 column 1 (char 0)"⟩) =
      .error (.usageTrackerError
        "Request failed: Expecting value: line 1 column 1 (char 0)") ∧
    get_usage ⟨"https://portal.example.com", "tok", "proj", 30⟩ none none
        (.response ⟨200, .error "Expecting value: line 1 column 1 (char 0)"⟩) =
      .error (.usageTrackerError
        "Request failed: Expecting value: line 1 column 1 (char 0)") := by
  have h := success_status_unparseable_body
    ⟨"https://portal.example.com", "tok", "proj", 30⟩ "openai" "gpt-4"
    1500 500 none none none 200 "Expecting value: line 1 column 1 (char 0)"
    (by decide) (by decide)
  exact ⟨h.1, h.2.1⟩
